import Mathlib

/-!
Verification of the dedup + TTL-cache + retry orchestration layer of the
heliusbot-volume workers.

The development shallowly embeds the relevant functions of the two source
files:

* `src/index.ts` — the Telegram bot worker: `checkNewTokens` (new-token
  filter over the `TRACKED_TOKENS` KV store), the inline freshness cache of
  `handleInfoCommand` / `handleTickerCommand`, and `sendMessage`.
* the Hono webhook worker — `fetchWithRetry`, `sendTelegramMessage`, and the
  `app.post('/webhook')` handler over the `KV_STORAGE` KV store.

External effects (KV reads/writes, alert sends, fetch attempts, sleeps) are
made explicit as event traces so that ordering and at-most-once properties
can be stated; machine state (the KV store, the in-process cache) is passed
explicitly.
-/

/-- Dedup store: association list modelling a Cloudflare KV namespace.
`kvPut` prepends and `kvGet` takes the first match, so a later put for the
same key overwrites the earlier one, as KV does.  TTLs are not modelled:
token markers are written with no TTL in the source, and every claim about
transaction markers is stated within the markers' lifetime. -/
abbrev Store := List (String × String)

/-- Embeds `kv.get(key)` / `env.TRACKED_TOKENS.get(key)`: the stored string,
or `none` when the key is absent. -/
def kvGet : Store → String → Option String
  | [], _ => none
  | (k', v) :: rest, k => if k' == k then some v else kvGet rest k

/-- Embeds `kv.put(key, value, ...)` / `env.TRACKED_TOKENS.put(key, value)`. -/
def kvPut (s : Store) (k v : String) : Store := (k, v) :: s

/-- JavaScript truthiness of a KV lookup result (`string | null`): `null`
and the empty string are falsy, every other string is truthy.  The source
guards with `if (!isTracked)` and `if (await kv.get(...))`. -/
def kvTruthy : Option String → Bool
  | none => false
  | some v => !(v == "")

/-- JavaScript truthiness of an optional numeric field, as in
`token.token_info?.supply && token.price_info?.price_per_token`:
absent (`undefined`) and `0` are falsy. -/
def jsTruthyRat : Option Rat → Bool
  | none => false
  | some v => if v = 0 then false else true

/-- Fields of a Helius asset that drive the control flow of
`checkNewTokens`: `token.id`, `token.token_info?.supply` and
`token.price_info?.price_per_token`.  The remaining fields (name, symbol,
volume, liquidity, created_at) only feed the alert message text and never
influence which entities are stored or alerted, so they are omitted. -/
structure HeliusToken where
  id : String
  supply : Option Rat
  pricePerToken : Option Rat
deriving DecidableEq

/-- Embeds the market-cap computation at the top of the `checkNewTokens`
loop: `supply * price_per_token` when both are truthy, else `0`. -/
def marketCapOf (t : HeliusToken) : Rat :=
  if jsTruthyRat t.supply && jsTruthyRat t.pricePerToken then
    t.supply.getD 0 * t.pricePerToken.getD 0
  else 0

/-- Observable effects of the dedup/alert pipeline: a KV read (with its
result), an alert send (`sendAlert` / `sendTelegramMessage`), and a KV
write. -/
inductive Event where
  | get : String → Option String → Event
  | alert : String → Event
  | put : String → String → Event
deriving DecidableEq

/-- Embeds the `for (const token of tokens)` loop of `checkNewTokens`:
per token, if the computed market cap is at least 100000, read
`TRACKED_TOKENS`; when the token is untracked, `sendAlert` runs first and
`TRACKED_TOKENS.put(token.id, 'tracked')` runs after it (no TTL).
Returns the final store and the event trace in execution order. -/
def checkNewTokensLoop : List HeliusToken → Store → Store × List Event
  | [], s => (s, [])
  | t :: ts, s =>
    if marketCapOf t ≥ 100000 then
      let isTracked := kvGet s t.id
      if kvTruthy isTracked then
        let r := checkNewTokensLoop ts s
        (r.1, Event.get t.id isTracked :: r.2)
      else
        let r := checkNewTokensLoop ts (kvPut s t.id "tracked")
        (r.1, Event.get t.id isTracked :: Event.alert t.id ::
          Event.put t.id "tracked" :: r.2)
    else
      checkNewTokensLoop ts s

/-- True exactly on an alert event for key `k`. -/
def isAlertFor (k : String) : Event → Bool
  | Event.alert k' => k' == k
  | _ => false

/-- True exactly on a store write for key `k`. -/
def isPutFor (k : String) : Event → Bool
  | Event.put k' _ => k' == k
  | _ => false

/-- Does the trace contain an alert for key `k`? -/
def alertsFor (evs : List Event) (k : String) : Bool := evs.any (isAlertFor k)

/-- Does the trace contain a store write for key `k`? -/
def putsFor (evs : List Event) (k : String) : Bool := evs.any (isPutFor k)

/-- Helper for `markThenAlertOK`: `seen` accumulates the keys already
written; an alert is only legal for a key already in `seen`. -/
def mtaGo : List String → List Event → Bool
  | _, [] => true
  | seen, Event.put k _ :: evs => mtaGo (k :: seen) evs
  | seen, Event.alert k :: evs => seen.contains k && mtaGo seen evs
  | seen, Event.get _ _ :: evs => mtaGo seen evs

/-- Mark-then-alert discipline: every alert for a key is preceded
(somewhere earlier in the trace) by a store write for that key. -/
def markThenAlertOK (evs : List Event) : Bool := mtaGo [] evs

/-- Alert-then-mark discipline: every alert event is immediately followed
by a store write. -/
def alertThenPut : List Event → Bool
  | [] => true
  | [Event.alert _] => false
  | Event.alert _ :: Event.put k v :: rest => alertThenPut (Event.put k v :: rest)
  | Event.alert _ :: Event.get _ _ :: _ => false
  | Event.alert _ :: Event.alert _ :: _ => false
  | Event.get _ _ :: rest => alertThenPut rest
  | Event.put _ _ :: rest => alertThenPut rest

/-- Constant `MAX_RETRIES = 3` of the webhook worker. -/
def MAX_RETRIES : Nat := 3

/-- Constant `RETRY_DELAY = 1000` (ms) of the webhook worker. -/
def RETRY_DELAY : Nat := 1000

/-- Constant `REQUEST_DELAY = 500` (ms) of the webhook worker. -/
def REQUEST_DELAY : Nat := 500

/-- Constant `PROCESSED_TRANSACTIONS = "processed_txns"`, the dedup-key
namespace for transaction signatures. -/
def PROCESSED_TRANSACTIONS : String := "processed_txns"

/-- Outcome of one iteration of the `fetchWithRetry` loop body, covering
every control path of `try { const response = await fetch(url, options);
if (!response.ok) throw ...; return await response.json(); }`:
the transport rejects, the response arrives with a non-ok status, the body
fails to parse as JSON, or everything succeeds with a parsed value. -/
inductive AttemptResult (α : Type) where
  | netThrow : String → AttemptResult α
  | badStatus : Nat → AttemptResult α
  | parseFail : String → AttemptResult α
  | ok : α → AttemptResult α
deriving DecidableEq

/-- Does an attempt outcome take the `return` path of the loop body? -/
def isOk {α : Type} : AttemptResult α → Bool
  | AttemptResult.ok _ => true
  | _ => false

/-- Observable steps of `fetchWithRetry`: one `fetch` attempt (numbered by
the loop counter `i`), or one `await delay(...)` sleep. -/
inductive RetryEvent where
  | attempt : Nat → RetryEvent
  | sleep : Nat → RetryEvent
deriving DecidableEq

/-- Embeds the `for (let i = 0; i < retries; i++)` loop of
`fetchWithRetry`.  The environment is an oracle giving the outcome of each
numbered attempt.  Any non-ok outcome is caught, a `RETRY_DELAY` sleep
happens, and the loop continues; after the loop the function throws
`Failed to fetch <url> after <MAX_RETRIES> retries` (the message uses the
constant `MAX_RETRIES`, not the `retries` parameter). -/
def fetchLoop {α : Type} (url : String) (oracle : Nat → AttemptResult α) :
    Nat → Nat → Except String α × List RetryEvent
  | 0, _ =>
    (Except.error ("Failed to fetch " ++ url ++ " after " ++
      toString MAX_RETRIES ++ " retries"), [])
  | Nat.succ fuel, i =>
    match oracle i with
    | AttemptResult.ok a => (Except.ok a, [RetryEvent.attempt i])
    | _ =>
      let r := fetchLoop url oracle fuel (i + 1)
      (r.1, RetryEvent.attempt i :: RetryEvent.sleep RETRY_DELAY :: r.2)

/-- Embeds `fetchWithRetry(url, options, retries)`: run the attempt loop
starting at `i = 0`.  Returns the settled value of the promise together
with the trace of attempts and sleeps. -/
def fetchWithRetry {α : Type} (url : String) (oracle : Nat → AttemptResult α)
    (retries : Nat) : Except String α × List RetryEvent :=
  fetchLoop url oracle retries 0

/-- Number of `fetch` attempts in a retry trace. -/
def countAttempts (evs : List RetryEvent) : Nat :=
  evs.countP fun e =>
    match e with
    | RetryEvent.attempt _ => true
    | _ => false

/-- Entry of the in-process cache of the bot worker:
`{ data: ..., lastUpdated: Date.now() }`. -/
structure CacheData (α : Type) where
  data : α
  lastUpdated : Int
deriving DecidableEq

/-- The keyed cache `cache.ticker` (and, with a single key, `cache.global`
or `cache.coinPaprika`): assignment prepends and lookup takes the first
match, so `cache.ticker[symbol] = entry` overwrites. -/
abbrev TickerCache (α : Type) := List (String × CacheData α)

/-- Lookup `cache.ticker[key]`. -/
def cacheLookup {α : Type} : TickerCache α → String → Option (CacheData α)
  | [], _ => none
  | (k', e) :: rest, k => if k' == k then some e else cacheLookup rest k

/-- Assignment `cache.ticker[key] = entry`. -/
def cacheInsert {α : Type} (c : TickerCache α) (k : String) (e : CacheData α) :
    TickerCache α :=
  (k, e) :: c

/-- Result of one cached read: the value handed to the user, the cache
afterwards, and whether the upstream fetch function was invoked. -/
structure CacheStep (α : Type) where
  value : α
  cache : TickerCache α
  fetched : Bool
deriving DecidableEq

/-- Embeds the inline cache logic shared by `handleInfoCommand` and
`handleTickerCommand`: if an entry exists for `key` and
`Date.now() - lastUpdated < 300000`, answer from the cache without
fetching; otherwise invoke the fetch (whose successful result is the
argument `fresh`), store `{ data: fresh, lastUpdated: now }` and answer
with it.  `now` stands for `Date.now()` at the moment of the read. -/
def getOrFetch {α : Type} (c : TickerCache α) (key : String) (now : Int)
    (fresh : α) : CacheStep α :=
  match cacheLookup c key with
  | some e =>
    if now - e.lastUpdated < 300000 then
      CacheStep.mk e.data c false
    else
      CacheStep.mk fresh (cacheInsert c key (CacheData.mk fresh now)) true
  | none => CacheStep.mk fresh (cacheInsert c key (CacheData.mk fresh now)) true

/-- Outcome of one Telegram `sendMessage` HTTP call: delivered with an ok
status, delivered with an error status (`!response.ok`), or the `fetch`
promise rejects. -/
inductive NotifyOutcome where
  | delivered : NotifyOutcome
  | apiError : Nat → NotifyOutcome
  | thrown : String → NotifyOutcome
deriving DecidableEq

/-- Observable steps of the alert dispatcher: the send attempt for an
entity, and an error line written by `console.error`. -/
inductive DispatchEvent where
  | sendAttempt : String → DispatchEvent
  | errorLogged : String → DispatchEvent
deriving DecidableEq

/-- Body of the `try` block of `sendMessage` (and of
`sendTelegramMessage`): the `fetch` to the Telegram API, which may reject;
on a non-ok response the error is logged and the function still returns. -/
def telegramPost (id : String) (outcome : NotifyOutcome) :
    Except String (List DispatchEvent) :=
  match outcome with
  | NotifyOutcome.delivered => Except.ok [DispatchEvent.sendAttempt id]
  | NotifyOutcome.apiError _ =>
    Except.ok [DispatchEvent.sendAttempt id, DispatchEvent.errorLogged id]
  | NotifyOutcome.thrown m => Except.error m

/-- Embeds `sendMessage` of the bot worker (`sendTelegramMessage` of the
webhook worker behaves the same way): the whole body is wrapped in
`try { ... } catch (error) { console.error(...) }`, so a rejected `fetch`
is logged and the function resolves normally. -/
def sendMessage (id : String) (outcome : NotifyOutcome) :
    Except String (List DispatchEvent) :=
  match telegramPost id outcome with
  | Except.ok evs => Except.ok evs
  | Except.error _ =>
    Except.ok [DispatchEvent.sendAttempt id, DispatchEvent.errorLogged id]

/-- Embeds the per-entity alert loop (the `for` loop of the webhook
handler and of `checkNewTokens`) over a batch of entities paired with the
outcome of their Telegram call.  A rejection escaping `sendMessage` would
abort the remaining iterations, which the `Except` plumbing makes
explicit. -/
def dispatchBatch : List (String × NotifyOutcome) →
    Except String (List DispatchEvent)
  | [] => Except.ok []
  | (id, oc) :: rest =>
    match sendMessage id oc with
    | Except.error e => Except.error e
    | Except.ok evs =>
      match dispatchBatch rest with
      | Except.error e => Except.error e
      | Except.ok evs' => Except.ok (evs ++ evs')

/-- Swap event of an enhanced Helius transaction:
`transaction.events?.swap`, with its `inAmount` and optional
`tokenAddress` (defaulted to `'Unknown Address'` when destructured). -/
structure SwapEvent where
  tokenAddress : Option String
  inAmount : Rat
deriving DecidableEq

/-- Fields of a webhook transaction read by the `/webhook` handler. -/
structure WebhookTx where
  type : String
  platform : String
  swap : Option SwapEvent
  signature : String
deriving DecidableEq

/-- Embeds the `for (const transaction of data)` loop of the `/webhook`
handler: skip anything that is not a Raydium SWAP with a swap event of
positive `inAmount`; otherwise read the `processed_txns_<signature>` dedup
key, and when it is absent send the Telegram alert first and then write
the marker with a 3600 s TTL. -/
def webhookLoop : List WebhookTx → Store → Store × List Event
  | [], s => (s, [])
  | tx :: rest, s =>
    if tx.type != "SWAP" || tx.platform != "Raydium" then
      webhookLoop rest s
    else
      match tx.swap with
      | none => webhookLoop rest s
      | some ev =>
        if ev.inAmount ≤ 0 then
          webhookLoop rest s
        else
          let key := PROCESSED_TRANSACTIONS ++ "_" ++ tx.signature
          let seen := kvGet s key
          if kvTruthy seen then
            let r := webhookLoop rest s
            (r.1, Event.get key seen :: r.2)
          else
            let r := webhookLoop rest (kvPut s key "processed")
            (r.1, Event.get key seen ::
              Event.alert (ev.tokenAddress.getD "Unknown Address") ::
              Event.put key "processed" :: r.2)

/-- Skip condition of the webhook loop, as one predicate: not a SWAP, not
on Raydium, no swap event, or non-positive `inAmount`. -/
def filteredOut (tx : WebhookTx) : Bool :=
  tx.type != "SWAP" || tx.platform != "Raydium" ||
    (match tx.swap with
     | none => true
     | some ev => decide (ev.inAmount ≤ 0))

/-- Response of the webhook route: `c.text(body, status)`. -/
inductive WebhookResponse where
  | text : String → Nat → WebhookResponse
deriving DecidableEq

/-- Request body of the webhook route as the handler can observe it:
`await c.req.json()` throws, or parses to a non-array value, or parses to
an array of transactions. -/
inductive WebhookBody where
  | malformed : WebhookBody
  | nonArray : WebhookBody
  | txns : List WebhookTx → WebhookBody
deriving DecidableEq

/-- Embeds the `app.post('/webhook')` handler of the webhook worker:
reject with 401 when the `Authorization` header differs from
`env.AUTH_TOKEN`, reject with 400 when the body does not parse, answer 200
without touching the store for a non-array or empty body, and otherwise
run the transaction loop.  Returns the response, the final store and the
event trace. -/
def webhookPost (authHeader : Option String) (authToken : String)
    (body : WebhookBody) (s : Store) : WebhookResponse × Store × List Event :=
  if authHeader != some authToken then
    (WebhookResponse.text "Unauthorized" 401, s, [])
  else
    match body with
    | WebhookBody.malformed =>
      (WebhookResponse.text "Error processing webhook" 400, s, [])
    | WebhookBody.nonArray =>
      (WebhookResponse.text "No transactions to process" 200, s, [])
    | WebhookBody.txns data =>
      if data.isEmpty then
        (WebhookResponse.text "No transactions to process" 200, s, [])
      else
        let r := webhookLoop data s
        (WebhookResponse.text "Webhook processed" 200, r.1, r.2)

/-- Event trace left by an all-failing retry run of `fuel` remaining
attempts starting at loop counter `i`. -/
def failTrace : Nat → Nat → List RetryEvent
  | 0, _ => []
  | Nat.succ fuel, i =>
    RetryEvent.attempt i :: RetryEvent.sleep RETRY_DELAY :: failTrace fuel (i + 1)

/-- Concrete Helius asset with a market cap of 1000000 USD. -/
def tok1M : HeliusToken := HeliusToken.mk "TOK" (some 1000000) (some 1)

/-- Concrete Helius asset with a market cap of 99999.99 USD. -/
def tokLow : HeliusToken := HeliusToken.mk "LOW" (some (9999999 / 100)) (some 1)

/-- Concrete Helius asset with a market cap of exactly 100000 USD. -/
def tokGate : HeliusToken := HeliusToken.mk "GATE" (some 100000) (some 1)

/-- Concrete request URL for the retry scenarios. -/
def url0 : String := "https://api.raydium.io/v2/main/pairs"

/-- Concrete attempt oracle: attempt 0 delivers an ok status whose body
fails to parse, attempt 1 succeeds. -/
def oracleParseThenOk : Nat → AttemptResult Nat := fun i =>
  if i == 0 then AttemptResult.parseFail "Unexpected token" else AttemptResult.ok 42

/-- Concrete attempt oracle: the upstream is unreachable on every attempt. -/
def oracleUnreachable : Nat → AttemptResult Nat := fun _ =>
  AttemptResult.netThrow "connect ECONNREFUSED"

/-- Concrete attempt oracle: every attempt delivers a 200 whose body is not
JSON. -/
def oracleMalformed : Nat → AttemptResult Nat := fun _ =>
  AttemptResult.parseFail "Unexpected end of JSON input"

/-- Concrete attempt oracle: every attempt gets an HTTP 500. -/
def oracleAllBad : Nat → AttemptResult Nat := fun _ => AttemptResult.badStatus 500

/-- Concrete webhook transaction: a valid Raydium swap. -/
def goodTxA : WebhookTx :=
  WebhookTx.mk "SWAP" "Raydium" (some (SwapEvent.mk (some "MintA") 5)) "sigA"

/-- Concrete webhook transaction: a second valid Raydium swap. -/
def goodTxB : WebhookTx :=
  WebhookTx.mk "SWAP" "Raydium" (some (SwapEvent.mk (some "MintB") 7)) "sigB"

/-- Concrete webhook transaction that the filter skips (not a SWAP). -/
def badTx : WebhookTx :=
  WebhookTx.mk "TRANSFER" "Raydium" (some (SwapEvent.mk (some "MintC") 9)) "sigC"

/-- Concrete dispatch batch in which the middle send rejects. -/
def batchABC : List (String × NotifyOutcome) :=
  [("A", NotifyOutcome.delivered), ("B", NotifyOutcome.thrown "socket hang up"),
   ("C", NotifyOutcome.delivered)]

/-- Closed form of an all-failing `fetchLoop` run: whatever the failure
causes are, the run attempts each remaining counter value, sleeps after
each failure, and settles on the fixed error message. -/
theorem fetchLoop_allFail {α : Type} (url : String)
    (oracle : Nat → AttemptResult α) (h : ∀ i, isOk (oracle i) = false) :
    ∀ fuel i, fetchLoop url oracle fuel i =
      (Except.error ("Failed to fetch " ++ url ++ " after " ++
        toString MAX_RETRIES ++ " retries"), failTrace fuel i) := by
  intro fuel
  induction fuel with
  | zero => intro i; rfl
  | succ n ih =>
    intro i
    have hne := h i
    cases hoc : oracle i with
    | ok a => rw [hoc] at hne; simp [isOk] at hne
    | netThrow m => simp [fetchLoop, hoc, ih, failTrace]
    | badStatus st => simp [fetchLoop, hoc, ih, failTrace]
    | parseFail m => simp [fetchLoop, hoc, ih, failTrace]

/-- Claim C3: a request whose every attempt fails makes `fetchWithRetry`
with a retry budget of 3 perform exactly 3 sequential fetch attempts with
the configured 1000 ms delay between them, and then fail with an error;
it never returns a success value. -/
theorem retry_exhaustion_three_attempts {α : Type} (url : String)
    (oracle : Nat → AttemptResult α) (h : ∀ i, isOk (oracle i) = false) :
    fetchWithRetry url oracle MAX_RETRIES =
      (Except.error ("Failed to fetch " ++ url ++ " after " ++
        toString MAX_RETRIES ++ " retries"),
       [RetryEvent.attempt 0, RetryEvent.sleep RETRY_DELAY,
        RetryEvent.attempt 1, RetryEvent.sleep RETRY_DELAY,
        RetryEvent.attempt 2, RetryEvent.sleep RETRY_DELAY]) ∧
    countAttempts (fetchWithRetry url oracle MAX_RETRIES).2 = 3 := by
  have hrun := fetchLoop_allFail url oracle h MAX_RETRIES 0
  constructor
  · rw [fetchWithRetry, hrun]; rfl
  · rw [fetchWithRetry, hrun]; rfl

/-- Witness for C3: a concrete oracle failing every attempt with HTTP 500
exhausts the budget exactly as stated. -/
theorem retry_exhaustion_three_attempts_witness :
    (∀ i, isOk (oracleAllBad i) = false) ∧
    (fetchWithRetry url0 oracleAllBad MAX_RETRIES =
      (Except.error ("Failed to fetch " ++ url0 ++ " after " ++
        toString MAX_RETRIES ++ " retries"),
       [RetryEvent.attempt 0, RetryEvent.sleep RETRY_DELAY,
        RetryEvent.attempt 1, RetryEvent.sleep RETRY_DELAY,
        RetryEvent.attempt 2, RetryEvent.sleep RETRY_DELAY]) ∧
     countAttempts (fetchWithRetry url0 oracleAllBad MAX_RETRIES).2 = 3) :=
  ⟨fun _ => rfl, retry_exhaustion_three_attempts url0 oracleAllBad (fun _ => rfl)⟩

/-- Counterexample to claim C4: a malformed body on the first attempt is
retried, not surfaced.  With a parse failure at attempt 0 and a success at
attempt 1, `fetchWithRetry` performs two attempts and returns the second
attempt's value, instead of failing immediately after one attempt. -/
theorem parse_failure_is_retried :
    oracleParseThenOk 0 = AttemptResult.parseFail "Unexpected token" ∧
    countAttempts (fetchWithRetry url0 oracleParseThenOk MAX_RETRIES).2 = 2 ∧
    (fetchWithRetry url0 oracleParseThenOk MAX_RETRIES).1 = Except.ok 42 := by
  refine ⟨rfl, rfl, rfl⟩

/-- Claim C4 as amended: a malformed upstream response is retried exactly
like a transient failure and consumes the retry budget — an upstream whose
every response fails to parse still gets all 3 attempts before the error
is surfaced, rather than being surfaced on the first attempt. -/
theorem malformed_consumes_retry_budget {α : Type} (url : String)
    (oracle : Nat → AttemptResult α)
    (h : ∀ i, ∃ m, oracle i = AttemptResult.parseFail m) :
    fetchWithRetry url oracle MAX_RETRIES =
      (Except.error ("Failed to fetch " ++ url ++ " after " ++
        toString MAX_RETRIES ++ " retries"),
       [RetryEvent.attempt 0, RetryEvent.sleep RETRY_DELAY,
        RetryEvent.attempt 1, RetryEvent.sleep RETRY_DELAY,
        RetryEvent.attempt 2, RetryEvent.sleep RETRY_DELAY]) := by
  have hfail : ∀ i, isOk (oracle i) = false := by
    intro i
    obtain ⟨m, hm⟩ := h i
    rw [hm]
    rfl
  rw [fetchWithRetry, fetchLoop_allFail url oracle hfail MAX_RETRIES 0]
  rfl

/-- Witness for the amended C4: the concrete always-malformed oracle
consumes all three attempts. -/
theorem malformed_consumes_retry_budget_witness :
    (∀ i, ∃ m, oracleMalformed i = AttemptResult.parseFail m) ∧
    fetchWithRetry url0 oracleMalformed MAX_RETRIES =
      (Except.error ("Failed to fetch " ++ url0 ++ " after " ++
        toString MAX_RETRIES ++ " retries"),
       [RetryEvent.attempt 0, RetryEvent.sleep RETRY_DELAY,
        RetryEvent.attempt 1, RetryEvent.sleep RETRY_DELAY,
        RetryEvent.attempt 2, RetryEvent.sleep RETRY_DELAY]) :=
  ⟨fun _ => ⟨"Unexpected end of JSON input", rfl⟩,
   malformed_consumes_retry_budget url0 oracleMalformed
     (fun _ => ⟨"Unexpected end of JSON input", rfl⟩)⟩

/-- Counterexample to claim C5: the failure surfaced after exhaustion does
not retain the cause of the last failed attempt.  Two runs whose last
attempts fail for different reasons (upstream unreachable vs. malformed
body) surface the very same error value, so the caller cannot distinguish
them. -/
theorem exhaustion_error_loses_last_cause :
    oracleUnreachable 2 ≠ oracleMalformed 2 ∧
    (fetchWithRetry url0 oracleUnreachable MAX_RETRIES).1 =
      (fetchWithRetry url0 oracleMalformed MAX_RETRIES).1 ∧
    (fetchWithRetry url0 oracleUnreachable MAX_RETRIES).1 =
      Except.error ("Failed to fetch " ++ url0 ++ " after " ++
        toString MAX_RETRIES ++ " retries") := by
  refine ⟨by decide, rfl, rfl⟩

/-- Claim C5 as amended: on exhausting all attempts the surfaced failure
carries the requested URL and the configured retry count, but not the
cause of the last failed attempt — the error value is a function of the
URL alone, identical for every combination of failure causes. -/
theorem exhaustion_error_url_only {α : Type} (url : String)
    (oracle : Nat → AttemptResult α) (h : ∀ i, isOk (oracle i) = false) :
    (fetchWithRetry url oracle MAX_RETRIES).1 =
      Except.error ("Failed to fetch " ++ url ++ " after " ++
        toString MAX_RETRIES ++ " retries") := by
  rw [fetchWithRetry, fetchLoop_allFail url oracle h MAX_RETRIES 0]

/-- Witness for the amended C5 at the concrete unreachable oracle. -/
theorem exhaustion_error_url_only_witness :
    (∀ i, isOk (oracleUnreachable i) = false) ∧
    (fetchWithRetry url0 oracleUnreachable MAX_RETRIES).1 =
      Except.error ("Failed to fetch " ++ url0 ++ " after " ++
        toString MAX_RETRIES ++ " retries") :=
  ⟨fun _ => rfl, exhaustion_error_url_only url0 oracleUnreachable (fun _ => rfl)⟩

/-- Counterexample to claim C1: the mark-then-alert ordering does not hold.
For a fresh token above the market-cap threshold over an empty store, the
trace of `checkNewTokens` is read, alert, write — the alert is dispatched
before the seen-marker is put, so there is an alert with no earlier write
of its key. -/
theorem mark_then_alert_fails_on_new_token :
    checkNewTokensLoop [tok1M] [] =
      ([("TOK", "tracked")],
       [Event.get "TOK" none, Event.alert "TOK", Event.put "TOK" "tracked"]) ∧
    markThenAlertOK (checkNewTokensLoop [tok1M] []).2 = false := by
  constructor
  · norm_num [checkNewTokensLoop, tok1M, marketCapOf, jsTruthyRat, kvGet,
      kvPut, kvTruthy]
  · norm_num [checkNewTokensLoop, tok1M, marketCapOf, jsTruthyRat, kvGet,
      kvPut, kvTruthy, markThenAlertOK, mtaGo]

/-- Every trace of the token filter keeps the alert-then-mark shape: an
alert event is always immediately followed by a store write. -/
theorem alertThenPut_checkNewTokensLoop (tokens : List HeliusToken) (s : Store) :
    alertThenPut (checkNewTokensLoop tokens s).2 = true := by
  induction tokens generalizing s with
  | nil => rfl
  | cons t ts ih =>
    by_cases hmc : marketCapOf t ≥ 100000
    · by_cases htr : kvTruthy (kvGet s t.id) = true
      · simp [checkNewTokensLoop, hmc, htr, alertThenPut, ih]
      · simp [checkNewTokensLoop, hmc, htr, alertThenPut, ih]
    · simp [checkNewTokensLoop, hmc, ih]

/-- Every trace of the webhook transaction loop keeps the alert-then-mark
shape as well. -/
theorem alertThenPut_webhookLoop (txs : List WebhookTx) (s : Store) :
    alertThenPut (webhookLoop txs s).2 = true := by
  induction txs generalizing s with
  | nil => rfl
  | cons tx rest ih =>
    by_cases h1 : (tx.type != "SWAP" || tx.platform != "Raydium") = true
    · simp [webhookLoop, h1, ih]
    · cases hsw : tx.swap with
      | none => simp [webhookLoop, h1, hsw, ih]
      | some ev =>
        by_cases h2 : ev.inAmount ≤ 0
        · simp [webhookLoop, h1, hsw, h2, ih]
        · by_cases h3 :
            kvTruthy (kvGet s (PROCESSED_TRANSACTIONS ++ "_" ++ tx.signature)) = true
          · simp [webhookLoop, h1, hsw, h2, h3, alertThenPut, ih]
          · simp [webhookLoop, h1, hsw, h2, h3, alertThenPut, ih]

/-- Claim C1 as amended: the ordering is alert-then-mark, not
mark-then-alert.  In both the token filter and the webhook transaction
loop, for every newly-seen entity the alert send is invoked first and the
`store.put` of the seen-marker immediately follows it; the marker is never
written before the alert. -/
theorem alert_then_mark_ordering (tokens : List HeliusToken) (s1 : Store)
    (txs : List WebhookTx) (s2 : Store) :
    alertThenPut (checkNewTokensLoop tokens s1).2 = true ∧
    alertThenPut (webhookLoop txs s2).2 = true :=
  ⟨alertThenPut_checkNewTokensLoop tokens s1, alertThenPut_webhookLoop txs s2⟩

/-- Reading through a write: `kvPut` shadows exactly its own key. -/
theorem kvGet_kvPut (s : Store) (k k' v : String) :
    kvGet (kvPut s k' v) k = if k' == k then some v else kvGet s k := rfl

/-- Runs of the token filter over a store in which key `k` is already
truthy never alert for `k`, never write `k` again, and leave `k` truthy. -/
theorem trackedRunInvariant (ts : List HeliusToken) (s : Store) (k : String)
    (h : kvTruthy (kvGet s k) = true) :
    alertsFor (checkNewTokensLoop ts s).2 k = false ∧
    putsFor (checkNewTokensLoop ts s).2 k = false ∧
    kvTruthy (kvGet (checkNewTokensLoop ts s).1 k) = true := by
  induction ts generalizing s with
  | nil => exact ⟨rfl, rfl, h⟩
  | cons t ts ih =>
    by_cases hmc : marketCapOf t ≥ 100000
    · by_cases htr : kvTruthy (kvGet s t.id) = true
      · have hrec := ih s h
        simp [checkNewTokensLoop, hmc, htr, alertsFor, putsFor, isAlertFor,
          isPutFor] at hrec ⊢
        exact hrec
      · have hne : (t.id == k) = false := by
          by_contra hcontra
          have heq : t.id = k := by simpa using hcontra
          rw [heq] at htr
          exact htr h
        have hkeep : kvTruthy (kvGet (kvPut s t.id "tracked") k) = true := by
          rw [kvGet_kvPut, hne]
          exact h
        have hrec := ih (kvPut s t.id "tracked") hkeep
        simp [checkNewTokensLoop, hmc, htr, alertsFor, putsFor, isAlertFor,
          isPutFor, hne] at hrec ⊢
        exact hrec
    · have hrec := ih s h
      simpa [checkNewTokensLoop, hmc] using hrec

/-- When a run of the token filter alerts for key `k`, the store it leaves
behind holds a truthy marker for `k`. -/
theorem alertImpliesTracked (ts : List HeliusToken) (s : Store) (k : String)
    (h : alertsFor (checkNewTokensLoop ts s).2 k = true) :
    kvTruthy (kvGet (checkNewTokensLoop ts s).1 k) = true := by
  induction ts generalizing s with
  | nil => simp [checkNewTokensLoop, alertsFor] at h
  | cons t ts ih =>
    by_cases hmc : marketCapOf t ≥ 100000
    · by_cases htr : kvTruthy (kvGet s t.id) = true
      · simp [checkNewTokensLoop, hmc, htr, alertsFor, isAlertFor] at h ⊢
        exact ih s (by simpa [alertsFor] using h)
      · by_cases hid : (t.id == k) = true
        · have hk : t.id = k := eq_of_beq hid
          have hkeep : kvTruthy (kvGet (kvPut s t.id "tracked") k) = true := by
            rw [kvGet_kvPut, hk]
            simp [kvTruthy]
          have := (trackedRunInvariant ts (kvPut s t.id "tracked") k hkeep).2.2
          simpa [checkNewTokensLoop, hmc, htr] using this
        · simp [checkNewTokensLoop, hmc, htr, alertsFor, isAlertFor, hid] at h ⊢
          exact ih (kvPut s t.id "tracked") (by simpa [alertsFor] using h)
    · simp [checkNewTokensLoop, hmc] at h ⊢
      exact ih s h

/-- Claim C2: at-most-once marking.  Once a run of the token filter has
alerted for identity key `k` (and so written its marker), any later run
over the store it left behind never alerts for an entity with the same key
again and never writes its marker again. -/
theorem at_most_once_marking (ts1 ts2 : List HeliusToken) (s : Store)
    (k : String) (h : alertsFor (checkNewTokensLoop ts1 s).2 k = true) :
    alertsFor (checkNewTokensLoop ts2 (checkNewTokensLoop ts1 s).1).2 k = false ∧
    putsFor (checkNewTokensLoop ts2 (checkNewTokensLoop ts1 s).1).2 k = false := by
  have ht := alertImpliesTracked ts1 s k h
  exact ⟨(trackedRunInvariant ts2 _ k ht).1, (trackedRunInvariant ts2 _ k ht).2.1⟩

/-- Witness for C2: the concrete token `tok1M` is alerted by a first run
over the empty store and is neither alerted nor re-marked by a second run
over the resulting store. -/
theorem at_most_once_marking_witness :
    alertsFor (checkNewTokensLoop [tok1M] []).2 "TOK" = true ∧
    (alertsFor (checkNewTokensLoop [tok1M] (checkNewTokensLoop [tok1M] []).1).2
        "TOK" = false ∧
     putsFor (checkNewTokensLoop [tok1M] (checkNewTokensLoop [tok1M] []).1).2
        "TOK" = false) :=
  ⟨by norm_num [checkNewTokensLoop, tok1M, marketCapOf, jsTruthyRat, kvGet,
      kvPut, kvTruthy, alertsFor, isAlertFor],
   at_most_once_marking [tok1M] [tok1M] [] "TOK"
     (by norm_num [checkNewTokensLoop, tok1M, marketCapOf, jsTruthyRat, kvGet,
       kvPut, kvTruthy, alertsFor, isAlertFor])⟩

/-- Claim C6: cache freshness round-trip.  Starting from a cache with no
entry for `key`, a first read at `t1` invokes the fetch; a second read at
`t2` within the 300000 ms freshness window does not fetch, returns the
cached data and leaves the cache unchanged; a read at `t3` at least
300001 ms after `t1` fetches again and overwrites the entry with
`lastUpdated = t3`. -/
theorem cache_freshness_roundtrip {α : Type} (key : String) (t1 t2 t3 : Int)
    (v1 v2 v3 : α) (h12 : t1 ≤ t2) (h2 : t2 - t1 < 300000)
    (h3 : 300001 ≤ t3 - t1) :
    (getOrFetch ([] : TickerCache α) key t1 v1).fetched = true ∧
    (getOrFetch (getOrFetch ([] : TickerCache α) key t1 v1).cache key t2
      v2).fetched = false ∧
    (getOrFetch (getOrFetch ([] : TickerCache α) key t1 v1).cache key t2
      v2).value = v1 ∧
    (getOrFetch (getOrFetch ([] : TickerCache α) key t1 v1).cache key t2
      v2).cache = (getOrFetch ([] : TickerCache α) key t1 v1).cache ∧
    (getOrFetch (getOrFetch ([] : TickerCache α) key t1 v1).cache key t3
      v3).fetched = true ∧
    cacheLookup (getOrFetch (getOrFetch ([] : TickerCache α) key t1 v1).cache
      key t3 v3).cache key = some (CacheData.mk v3 t3) := by
  have hstale : ¬ (t3 - t1 < 300000) := by omega
  refine ⟨rfl, ?_, ?_, ?_, ?_, ?_⟩ <;>
    simp [getOrFetch, cacheLookup, cacheInsert, h2, hstale]

/-- Witness for C6 at key "X", times 0 / 299999 / 300001 and values
1, 2, 3. -/
theorem cache_freshness_roundtrip_witness :
    ((0 : Int) ≤ 299999 ∧ (299999 : Int) - 0 < 300000 ∧
      (300001 : Int) ≤ 300001 - 0) ∧
    ((getOrFetch ([] : TickerCache Nat) "X" 0 1).fetched = true ∧
     (getOrFetch (getOrFetch ([] : TickerCache Nat) "X" 0 1).cache "X" 299999
        2).fetched = false ∧
     (getOrFetch (getOrFetch ([] : TickerCache Nat) "X" 0 1).cache "X" 299999
        2).value = 1 ∧
     (getOrFetch (getOrFetch ([] : TickerCache Nat) "X" 0 1).cache "X" 299999
        2).cache = (getOrFetch ([] : TickerCache Nat) "X" 0 1).cache ∧
     (getOrFetch (getOrFetch ([] : TickerCache Nat) "X" 0 1).cache "X" 300001
        3).fetched = true ∧
     cacheLookup (getOrFetch (getOrFetch ([] : TickerCache Nat) "X" 0 1).cache
        "X" 300001 3).cache "X" = some (CacheData.mk 3 300001)) :=
  ⟨⟨by decide, by decide, by decide⟩,
   cache_freshness_roundtrip "X" 0 299999 300001 1 2 3 (by decide) (by decide)
     (by decide)⟩

/-- Claim C7: the market-cap threshold gate.  A token whose computed market
cap is strictly below 100000 produces no store read, no store write and no
alert; a token at or above 100000 reaches the dedup lookup and, when its
key is untracked, the alert dispatch. -/
theorem market_cap_threshold_gate (t : HeliusToken) (s : Store) :
    (marketCapOf t < 100000 → checkNewTokensLoop [t] s = (s, [])) ∧
    (100000 ≤ marketCapOf t →
      Event.get t.id (kvGet s t.id) ∈ (checkNewTokensLoop [t] s).2 ∧
      (kvTruthy (kvGet s t.id) = false →
        Event.alert t.id ∈ (checkNewTokensLoop [t] s).2)) := by
  constructor
  · intro hlt
    have hmc : ¬ (marketCapOf t ≥ 100000) := not_le.mpr hlt
    simp [checkNewTokensLoop, hmc]
  · intro hge
    have hmc : marketCapOf t ≥ 100000 := hge
    constructor
    · by_cases htr : kvTruthy (kvGet s t.id) = true
      · simp [checkNewTokensLoop, hmc, htr]
      · simp [checkNewTokensLoop, hmc, htr]
    · intro htr
      simp [checkNewTokensLoop, hmc, htr]

/-- Witness for C7: the 99999.99 USD token is gated out over the empty
store, while the 100000.00 USD token reaches the lookup and the alert. -/
theorem market_cap_threshold_gate_witness :
    (marketCapOf tokLow < 100000 ∧ checkNewTokensLoop [tokLow] [] = ([], [])) ∧
    (100000 ≤ marketCapOf tokGate ∧
      Event.get tokGate.id (kvGet [] tokGate.id) ∈
        (checkNewTokensLoop [tokGate] []).2 ∧
      (kvTruthy (kvGet [] tokGate.id) = false →
        Event.alert tokGate.id ∈ (checkNewTokensLoop [tokGate] []).2)) :=
  ⟨⟨by norm_num [tokLow, marketCapOf, jsTruthyRat],
    (market_cap_threshold_gate tokLow []).1
      (by norm_num [tokLow, marketCapOf, jsTruthyRat])⟩,
   ⟨by norm_num [tokGate, marketCapOf, jsTruthyRat],
    (market_cap_threshold_gate tokGate []).2
      (by norm_num [tokGate, marketCapOf, jsTruthyRat])⟩⟩

/-- Per-send safety: whatever the Telegram call does, `sendMessage`
resolves normally (its `catch` swallows the rejection) and its trace
records the send attempt. -/
theorem sendMessage_resolves (id : String) (oc : NotifyOutcome) :
    ∃ evs, sendMessage id oc = Except.ok evs ∧
      DispatchEvent.sendAttempt id ∈ evs := by
  cases oc with
  | delivered => exact ⟨_, rfl, by simp⟩
  | apiError st => exact ⟨_, rfl, by simp⟩
  | thrown m => exact ⟨_, rfl, by simp⟩

/-- The dispatch loop resolves on every batch and its trace records a send
attempt for every entity of the batch. -/
theorem dispatchBatch_resolves (batch : List (String × NotifyOutcome)) :
    ∃ evs, dispatchBatch batch = Except.ok evs ∧
      ∀ p ∈ batch, DispatchEvent.sendAttempt p.1 ∈ evs := by
  induction batch with
  | nil => exact ⟨[], rfl, by simp⟩
  | cons hd tl ih =>
    obtain ⟨evs1, h1, hmem1⟩ := sendMessage_resolves hd.1 hd.2
    obtain ⟨evs2, h2, hmem2⟩ := ih
    refine ⟨evs1 ++ evs2, ?_, ?_⟩
    · have : hd = (hd.1, hd.2) := rfl
      rw [dispatchBatch.eq_def]
      cases hd
      simp only [] at h1 ⊢
      rw [h1, h2]
    · intro p hp
      rw [List.mem_cons] at hp
      rw [List.mem_append]
      rcases hp with rfl | hp
      · exact Or.inl hmem1
      · exact Or.inr (hmem2 p hp)

/-- Claim C8: per-item isolation in the alert dispatcher.  For every batch
and every entity in it, the batch loop completes without raising and that
entity's notification is attempted — a notify failure for one entity never
aborts the processing of the others. -/
theorem dispatch_per_item_isolation (batch : List (String × NotifyOutcome))
    (id : String) (oc : NotifyOutcome) (h : (id, oc) ∈ batch) :
    ∃ evs, dispatchBatch batch = Except.ok evs ∧
      DispatchEvent.sendAttempt id ∈ evs := by
  obtain ⟨evs, hok, hall⟩ := dispatchBatch_resolves batch
  exact ⟨evs, hok, hall (id, oc) h⟩

/-- Witness for C8: in the batch [A, B, C] where B's send rejects, the
loop still resolves and C (which follows the failure) is attempted. -/
theorem dispatch_per_item_isolation_witness :
    ("C", NotifyOutcome.delivered) ∈ batchABC ∧
    ∃ evs, dispatchBatch batchABC = Except.ok evs ∧
      DispatchEvent.sendAttempt "C" ∈ evs :=
  ⟨by decide,
   dispatch_per_item_isolation batchABC "C" NotifyOutcome.delivered (by decide)⟩

/-- Claim C9: webhook auth rejection.  Whenever the `Authorization` header
differs from the pre-shared secret, the handler answers 401 Unauthorized,
the store is untouched and the trace is empty — no entity of the body is
read from or written to the dedup store and no alert is sent, whatever the
body holds. -/
theorem webhook_auth_rejection (authHeader : Option String)
    (authToken : String) (body : WebhookBody) (s : Store)
    (h : authHeader ≠ some authToken) :
    webhookPost authHeader authToken body s =
      (WebhookResponse.text "Unauthorized" 401, s, []) := by
  have hb : (authHeader != some authToken) = true := by
    simpa using h
  simp [webhookPost, hb]

/-- Witness for C9: a delivery with header `Authorization: wrong` carrying
two valid swaps is rejected with 401 and leaves no trace. -/
theorem webhook_auth_rejection_witness :
    (some "wrong" ≠ some "secret-token") ∧
    webhookPost (some "wrong") "secret-token"
        (WebhookBody.txns [goodTxA, goodTxB]) [] =
      (WebhookResponse.text "Unauthorized" 401, [], []) :=
  ⟨by decide,
   webhook_auth_rejection (some "wrong") "secret-token"
     (WebhookBody.txns [goodTxA, goodTxB]) [] (by decide)⟩

/-- One filtered-out transaction at the head of the batch is skipped
without any effect. -/
theorem webhookLoop_skip (tx : WebhookTx) (rest : List WebhookTx) (s : Store)
    (h : filteredOut tx = true) :
    webhookLoop (tx :: rest) s = webhookLoop rest s := by
  by_cases h1 : (tx.type != "SWAP" || tx.platform != "Raydium") = true
  · simp [webhookLoop, h1]
  · have hb : (tx.type != "SWAP" || tx.platform != "Raydium") = false := by
      simpa using h1
    rw [filteredOut, hb, Bool.false_or] at h
    cases hsw : tx.swap with
    | none => simp [webhookLoop, h1, hsw]
    | some ev =>
      rw [hsw] at h
      have h2 : ev.inAmount ≤ 0 := of_decide_eq_true h
      simp [webhookLoop, h1, hsw, h2]

/-- Processing one transaction at the head of two batches whose tails run
identically from every store gives identical runs. -/
theorem webhookLoop_cong (p : WebhookTx) (l1 l2 : List WebhookTx)
    (h : ∀ s, webhookLoop l1 s = webhookLoop l2 s) (s : Store) :
    webhookLoop (p :: l1) s = webhookLoop (p :: l2) s := by
  by_cases h1 : (p.type != "SWAP" || p.platform != "Raydium") = true
  · simp [webhookLoop, h1, h s]
  · cases hsw : p.swap with
    | none => simp [webhookLoop, h1, hsw, h s]
    | some ev =>
      by_cases h2 : ev.inAmount ≤ 0
      · simp [webhookLoop, h1, hsw, h2, h s]
      · by_cases h3 :
          kvTruthy (kvGet s (PROCESSED_TRANSACTIONS ++ "_" ++ p.signature)) = true
        · simp [webhookLoop, h1, hsw, h2, h3, h s]
        · simp [webhookLoop, h1, hsw, h2, h3,
            h (kvPut s (PROCESSED_TRANSACTIONS ++ "_" ++ p.signature) "processed")]

/-- Claim C10: the implicit webhook event filter.  A transaction that is
not a SWAP, or not on Raydium, or lacks a swap event, or whose swap
`inAmount` is not strictly positive, is skipped entirely: the batch runs
exactly as if the transaction were not present — no alert is sent for it,
no processed-transaction marker is written for it, and the other
transactions are processed unchanged. -/
theorem webhook_event_filter_skip (pre post : List WebhookTx) (tx : WebhookTx)
    (s : Store) (h : filteredOut tx = true) :
    webhookLoop (pre ++ tx :: post) s = webhookLoop (pre ++ post) s := by
  induction pre generalizing s with
  | nil => exact webhookLoop_skip tx post s h
  | cons p ps ih =>
    exact webhookLoop_cong p (ps ++ tx :: post) (ps ++ post) (fun s' => ih s') s

/-- Witness for C10: dropping the non-SWAP transaction from the middle of
a concrete batch leaves the run unchanged. -/
theorem webhook_event_filter_skip_witness :
    filteredOut badTx = true ∧
    webhookLoop [goodTxA, badTx, goodTxB] [] = webhookLoop [goodTxA, goodTxB] [] :=
  ⟨by decide, webhook_event_filter_skip [goodTxA] [goodTxB] badTx [] (by decide)⟩
